import Mathlib

/-!
Verification of the CommuPath backend core (quest generation, place
discovery, proof verification) against its specification.

The Python source is shallowly embedded: Python floats are modelled as
rationals (`ℚ`), strings as `String`, dictionaries of known shape as
structures, exceptions as `Except`/environment oracles.  External
services (Google Places, Geocoding, Gemini) are modelled as oracle
values supplied in an environment record, so that each code path of the
source is reachable by choosing the environment.
-/

namespace CommuPath

/-! ## Data model (`backend/models.py`) -/

/-- `ResolutionCategory` enum from `models.py`. -/
inductive ResolutionCategory where
  | environment
  | social
  | education
  | health
deriving DecidableEq, Repr

/-- String value of each category, as in the Python `str, Enum`. -/
def ResolutionCategory.value : ResolutionCategory → String
  | .environment => "Environment"
  | .social => "Social"
  | .education => "Education"
  | .health => "Health"

/-- `Difficulty` enum from `models.py`. -/
inductive Difficulty where
  | easy
  | medium
  | hard
deriving DecidableEq, Repr

/-- The `Difficulty(value)` enum constructor: succeeds exactly on the three
enum values, raises (here: `none`) otherwise. -/
def Difficulty.ofString : String → Option Difficulty
  | "Easy" => some .easy
  | "Medium" => some .medium
  | "Hard" => some .hard
  | _ => none

/-- `Coordinates` pydantic model: `lat` with `ge=-90, le=90`, `lng` with
`ge=-180, le=180`.  The validated bounds are carried as fields, so every
`Coordinates` value in existence satisfies them. -/
structure Coordinates where
  lat : ℚ
  lng : ℚ
  lat_ge : -90 ≤ lat
  lat_le : lat ≤ 90
  lng_ge : -180 ≤ lng
  lng_le : lng ≤ 180

/-- Pydantic construction of `Coordinates`: validates both fields and raises
a `ValidationError` (here `.error`) when either is out of range; stores the
values unmodified on success. -/
def mkCoordinates (lat lng : ℚ) : Except String Coordinates :=
  if h1 : -90 ≤ lat ∧ lat ≤ 90 then
    if h2 : -180 ≤ lng ∧ lng ≤ 180 then
      .ok ⟨lat, lng, h1.1, h1.2, h2.1, h2.2⟩
    else .error "ValidationError: lng out of range"
  else .error "ValidationError: lat out of range"

/-- A formatted place dictionary as produced by
`LocationService._format_places` (`location_service.py`). -/
structure Place where
  name : String
  address : String
  coordinates : Coordinates
  place_id : Option String
  types : List String
  rating : Option ℚ
  user_ratings_total : ℕ
  business_status : String

/-! ## `LocationService.calculate_place_quality_score` -/

/-- The fixed high-value type list from `calculate_place_quality_score`. -/
def high_value_types : List String := ["park", "school", "hospital", "community_center"]

/-- `LocationService.calculate_place_quality_score` (`location_service.py`
lines 268-303).  Python truthiness is embedded faithfully: a rating of
`0.0` and a review count of `0` are falsy, so those branches contribute
nothing (which coincides with their weighted value). -/
def calculate_place_quality_score (place : Place) : ℚ :=
  let score : ℚ := 0
  let score := match place.rating with
    | none => score
    | some r => if r = 0 then score else score + r / 5 * (4/10)
  let score :=
    if place.user_ratings_total = 0 then score
    else score + (min place.user_ratings_total 100 : ℚ) / 100 * (3/10)
  let score := if place.business_status = "OPERATIONAL" then score + 2/10 else score
  let score :=
    if high_value_types.any (fun hvt => place.types.contains hvt) then score + 1/10
    else score
  min score 1

/-- The weighted-sum formula as the spec states it: rating/5 × 0.4 plus
min(count,100)/100 × 0.3 plus 0.2 for Operational plus 0.1 for a
high-value tag, capped at 1.0 (an absent rating contributes 0). -/
def qualityScoreSpec (place : Place) : ℚ :=
  min ((place.rating.getD 0) / 5 * (4/10)
    + (min place.user_ratings_total 100 : ℚ) / 100 * (3/10)
    + (if place.business_status = "OPERATIONAL" then 2/10 else 0)
    + (if high_value_types.any (fun hvt => place.types.contains hvt) then 1/10 else 0)) 1

theorem calculate_place_quality_score_eq_spec (place : Place) :
    calculate_place_quality_score place = qualityScoreSpec place := by
  simp only [calculate_place_quality_score, qualityScoreSpec]
  congr 1
  rcases hr : place.rating with _ | r
  · rcases eq_or_ne place.user_ratings_total 0 with h0 | h0 <;>
      simp [h0] <;> split_ifs <;> push_cast <;> ring
  · rcases eq_or_ne r 0 with hr0 | hr0 <;>
      rcases eq_or_ne place.user_ratings_total 0 with h0 | h0 <;>
        simp [hr0, h0] <;> split_ifs <;> push_cast <;> ring

/-- A concrete valid coordinate pair (Ibadan), used in witnesses. -/
def coordIbadan : Coordinates :=
  ⟨73775/10000, 39470/10000, by norm_num, by norm_num, by norm_num, by norm_num⟩

/-- A perfect-quality place: rating 5.0, 150 reviews, operational, park tag. -/
def perfectPlace : Place :=
  ⟨"Agodi Gardens", "Ibadan", coordIbadan, some "pid1", ["park", "tourist_attraction"],
    some 5, 150, "OPERATIONAL"⟩

/-- A worthless place: no rating, no reviews, closed, no high-value tag. -/
def zeroPlace : Place :=
  ⟨"Old Depot", "", coordIbadan, none, ["storage"], none, 0, "CLOSED_PERMANENTLY"⟩

/-- C5: for every place whose rating (when present) lies in [0,5], the
quality score lies in [0,1]; it equals the weighted sum
rating/5 × 0.4 + min(count,100)/100 × 0.3 + 0.2 (Operational) + 0.1
(high-value tag) capped at 1.0; a place with rating 5.0, at least 100
reviews, Operational status and a high-value tag scores exactly 1.0; and
a place with no rating, no reviews, non-operational status and no
high-value tag scores exactly 0.0. -/
theorem quality_score_bounds_and_formula (place : Place)
    (hrat : ∀ r ∈ place.rating, 0 ≤ r ∧ r ≤ 5) :
    0 ≤ calculate_place_quality_score place ∧
    calculate_place_quality_score place ≤ 1 ∧
    calculate_place_quality_score place = qualityScoreSpec place ∧
    (place.rating = some 5 → 100 ≤ place.user_ratings_total →
      place.business_status = "OPERATIONAL" →
      high_value_types.any (fun hvt => place.types.contains hvt) = true →
      calculate_place_quality_score place = 1) ∧
    (place.rating = none → place.user_ratings_total = 0 →
      place.business_status ≠ "OPERATIONAL" →
      high_value_types.any (fun hvt => place.types.contains hvt) = false →
      calculate_place_quality_score place = 0) := by
  have hspec := calculate_place_quality_score_eq_spec place
  refine ⟨?_, ?_, hspec, ?_, ?_⟩
  · rw [hspec]
    unfold qualityScoreSpec
    have h1 : (0:ℚ) ≤ place.rating.getD 0 := by
      rcases h : place.rating with _ | r
      · simp
      · simpa using (hrat r (by simp [h])).1
    refine le_min ?_ (by norm_num)
    have h2 : (0:ℚ) ≤ (min place.user_ratings_total 100 : ℚ) / 100 * (3/10) := by positivity
    have h3 : (0:ℚ) ≤ place.rating.getD 0 / 5 * (4/10) := by positivity
    split_ifs <;> norm_num <;> linarith
  · rw [hspec]
    exact min_le_right _ _
  · intro h5 h100 hop htag
    rw [hspec]
    unfold qualityScoreSpec
    have h100q : (100:ℚ) ≤ place.user_ratings_total := by exact_mod_cast h100
    rw [h5, min_eq_right h100q, if_pos hop, if_pos htag]
    norm_num
  · intro hnone h0 hop htag
    rw [hspec]
    unfold qualityScoreSpec
    have htag2 : ¬ (high_value_types.any fun hvt => place.types.contains hvt) = true := by
      simp only [htag]
      decide
    rw [hnone, h0, if_neg hop, if_neg htag2]
    norm_num

/-- Witness for C5 at the two concrete endpoint places. -/
theorem quality_score_bounds_and_formula_witness :
    calculate_place_quality_score perfectPlace = 1 ∧
    calculate_place_quality_score zeroPlace = 0 := by
  constructor
  · exact (quality_score_bounds_and_formula perfectPlace
      (by intro r hr; simp [perfectPlace] at hr; subst hr; norm_num)).2.2.2.1
      rfl (by norm_num [perfectPlace]) rfl (by decide)
  · exact (quality_score_bounds_and_formula zeroPlace
      (by intro r hr; simp [zeroPlace] at hr)).2.2.2.2
      rfl rfl (by simp [zeroPlace]) (by decide)

/-- C9: constructing `Coordinates` with out-of-range latitude or longitude
fails with a validation error that propagates (modelled as `.error`);
in-range construction succeeds and stores the values unmodified; and every
`Coordinates` value satisfies the bounds. -/
theorem coordinates_validated_on_construction (lat lng : ℚ) :
    (∀ c, mkCoordinates lat lng = .ok c → c.lat = lat ∧ c.lng = lng) ∧
    ((∃ c, mkCoordinates lat lng = .ok c) ↔
      (-90 ≤ lat ∧ lat ≤ 90) ∧ (-180 ≤ lng ∧ lng ≤ 180)) ∧
    (¬((-90 ≤ lat ∧ lat ≤ 90) ∧ (-180 ≤ lng ∧ lng ≤ 180)) →
      ∃ msg, mkCoordinates lat lng = .error msg) ∧
    (∀ c : Coordinates, -90 ≤ c.lat ∧ c.lat ≤ 90 ∧ -180 ≤ c.lng ∧ c.lng ≤ 180) := by
  refine ⟨?_, ?_, ?_, fun c => ⟨c.lat_ge, c.lat_le, c.lng_ge, c.lng_le⟩⟩
  · intro c hc
    unfold mkCoordinates at hc
    split_ifs at hc with h1 h2
    · cases hc
      exact ⟨rfl, rfl⟩
  · constructor
    · rintro ⟨c, hc⟩
      unfold mkCoordinates at hc
      split_ifs at hc with h1 h2
      exact ⟨h1, h2⟩
    · rintro ⟨h1, h2⟩
      exact ⟨⟨lat, lng, h1.1, h1.2, h2.1, h2.2⟩, by unfold mkCoordinates; rw [dif_pos h1, dif_pos h2]⟩
  · intro h
    unfold mkCoordinates
    rcases Decidable.em (-90 ≤ lat ∧ lat ≤ 90) with h1 | h1
    · rcases Decidable.em (-180 ≤ lng ∧ lng ≤ 180) with h2 | h2
      · exact absurd ⟨h1, h2⟩ h
      · exact ⟨_, by rw [dif_pos h1, dif_neg h2]⟩
    · exact ⟨_, by rw [dif_neg h1]⟩

/-- Witness for C9: in-range construction at (7.3775, 3.9470) succeeds
storing the inputs, and latitude 91 is rejected. -/
theorem coordinates_validated_on_construction_witness :
    (mkCoordinates (73775/10000) (39470/10000)).toOption.map Coordinates.lat
      = some (73775/10000) ∧
    ∃ msg, mkCoordinates 91 0 = .error msg := by
  constructor
  · have h := coordinates_validated_on_construction (73775/10000) (39470/10000)
    obtain ⟨c, hc⟩ := h.2.1.mpr (by norm_num)
    rw [hc]
    simp only [Except.toOption]
    simp [(h.1 c hc).1]
  · exact (coordinates_validated_on_construction 91 0).2.2.1 (by norm_num)

/-! ## `LocationService.reverse_geocode` and its cache (`location_service.py`) -/

/-- Round-half-to-even on rationals, the tie-breaking rule of Python's
built-in `round`. -/
def roundHalfEven (q : ℚ) : ℤ :=
  let f := ⌊q⌋
  let frac := q - f
  if frac < 1/2 then f
  else if 1/2 < frac then f + 1
  else if f % 2 = 0 then f else f + 1

/-- Python `round(x, 4)`: round to 4 decimal places. -/
def round4 (q : ℚ) : ℚ := (roundHalfEven (q * 10000) : ℚ) / 10000

/-- State of the `lru_cache(maxsize=1000)` wrapping
`reverse_geocode_cached`, plus a counter of external geocoding calls.
The cache list is ordered most-recently-used first. -/
structure GeoState where
  cache : List ((ℚ × ℚ) × Option String)
  externalCalls : ℕ

/-- Cache lookup: the memoised value for a key, if present. -/
def cacheLookup (cache : List ((ℚ × ℚ) × Option String)) (key : ℚ × ℚ) :
    Option (Option String) :=
  (cache.find? (fun e => e.1 = key)).map (·.2)

/-- `LocationService.reverse_geocode_cached` under `lru_cache(maxsize=1000)`:
on a hit, return the memoised value (touching the entry to the front);
on a miss, perform one external geocoding call (the oracle `geo`), memoise
the result, and evict the least-recently-used entry beyond capacity 1000.
The body of `reverse_geocode_cached` itself never raises: every service
error is caught and turned into `none`, which is what the oracle models. -/
def reverse_geocode_cached (geo : ℚ × ℚ → Option String) (st : GeoState)
    (key : ℚ × ℚ) : Option String × GeoState :=
  match cacheLookup st.cache key with
  | some v => (v, ⟨(key, v) :: st.cache.filter (fun e => ¬ e.1 = key), st.externalCalls⟩)
  | none =>
      let v := geo key
      (v, ⟨(key, v) :: st.cache.take 999, st.externalCalls + 1⟩)

/-- `LocationService.reverse_geocode`: rounds both coordinates to 4 decimal
places before delegating to the cached lookup. -/
def reverse_geocode (geo : ℚ × ℚ → Option String) (st : GeoState)
    (lat lng : ℚ) : Option String × GeoState :=
  reverse_geocode_cached geo st (round4 lat, round4 lng)

theorem reverse_geocode_key_at_front (geo : ℚ × ℚ → Option String)
    (st : GeoState) (lat lng : ℚ) :
    ∃ rest, ((reverse_geocode geo st lat lng).2).cache =
      ((round4 lat, round4 lng), (reverse_geocode geo st lat lng).1) :: rest := by
  unfold reverse_geocode reverse_geocode_cached
  rcases h : cacheLookup st.cache (round4 lat, round4 lng) with _ | v
  · exact ⟨st.cache.take 999, rfl⟩
  · exact ⟨st.cache.filter (fun e => ¬ e.1 = (round4 lat, round4 lng)), rfl⟩

theorem round4_ibadan_lat : round4 (737751234/100000000) = 73775/10000 := by
  unfold round4 roundHalfEven
  norm_num

theorem round4_ibadan_lat_rounded : round4 (73775/10000) = 73775/10000 := by
  unfold round4 roundHalfEven
  norm_num

theorem round4_ibadan_lng : round4 (394701234/100000000) = 39470/10000 := by
  unfold round4 roundHalfEven
  norm_num

theorem round4_ibadan_lng_rounded : round4 (39470/10000) = 39470/10000 := by
  unfold round4 roundHalfEven
  norm_num

/-- C6: the coordinates are rounded to 4 decimal places before the cache
key is formed, so two calls whose coordinates agree after rounding share
one cache key: after the first call, the second returns the very same
result and performs no further external call — in particular for the
spec's example pair (7.37751234, 3.94701234) and (7.3775, 3.9470), whose
roundings coincide. -/
theorem reverse_geocode_cache_hit_after_rounding (geo : ℚ × ℚ → Option String)
    (st : GeoState) (lat1 lng1 lat2 lng2 : ℚ)
    (hlat : round4 lat1 = round4 lat2) (hlng : round4 lng1 = round4 lng2) :
    (reverse_geocode geo (reverse_geocode geo st lat1 lng1).2 lat2 lng2).1 =
      (reverse_geocode geo st lat1 lng1).1 ∧
    ((reverse_geocode geo (reverse_geocode geo st lat1 lng1).2 lat2 lng2).2).externalCalls =
      ((reverse_geocode geo st lat1 lng1).2).externalCalls ∧
    round4 (737751234/100000000) = round4 (73775/10000) ∧
    round4 (394701234/100000000) = round4 (39470/10000) := by
  obtain ⟨rest, hfront⟩ := reverse_geocode_key_at_front geo st lat1 lng1
  have hkey : (round4 lat2, round4 lng2) = (round4 lat1, round4 lng1) := by
    rw [hlat, hlng]
  have hhit : cacheLookup ((reverse_geocode geo st lat1 lng1).2).cache
      (round4 lat2, round4 lng2) = some (reverse_geocode geo st lat1 lng1).1 := by
    rw [hfront, hkey]
    unfold cacheLookup
    simp [List.find?]
  refine ⟨?_, ?_, round4_ibadan_lat.trans round4_ibadan_lat_rounded.symm,
    round4_ibadan_lng.trans round4_ibadan_lng_rounded.symm⟩
  · show (reverse_geocode_cached geo _ (round4 lat2, round4 lng2)).1 = _
    rw [reverse_geocode_cached, hhit]
  · show (reverse_geocode_cached geo _ (round4 lat2, round4 lng2)).2.externalCalls = _
    rw [reverse_geocode_cached, hhit]

/-- Witness for C6 at the spec's example coordinates, starting from an
empty cache and an oracle answering "Bodija". -/
theorem reverse_geocode_cache_hit_witness :
    (reverse_geocode (fun _ => some "Bodija")
        (reverse_geocode (fun _ => some "Bodija") ⟨[], 0⟩
          (737751234/100000000) (394701234/100000000)).2
        (73775/10000) (39470/10000)).1 = some "Bodija" ∧
    (reverse_geocode (fun _ => some "Bodija")
        (reverse_geocode (fun _ => some "Bodija") ⟨[], 0⟩
          (737751234/100000000) (394701234/100000000)).2
        (73775/10000) (39470/10000)).2.externalCalls = 1 := by
  have h := reverse_geocode_cache_hit_after_rounding (fun _ => some "Bodija")
    ⟨[], 0⟩ (737751234/100000000) (394701234/100000000)
    (73775/10000) (39470/10000)
    (round4_ibadan_lat.trans round4_ibadan_lat_rounded.symm)
    (round4_ibadan_lng.trans round4_ibadan_lng_rounded.symm)
  refine ⟨?_, ?_⟩
  · rw [h.1]
    rfl
  · rw [h.2.1]
    rfl

/-! ## `LocationService.find_nearby_places` (`location_service.py`) -/

/-- The `CATEGORY_PLACE_TYPES` class constant. -/
def CATEGORY_PLACE_TYPES : List (String × List String) :=
  [("Environment", ["park", "campground", "natural_feature", "tourist_attraction"]),
   ("Education", ["school", "university", "library", "primary_school", "secondary_school"]),
   ("Health", ["hospital", "doctor", "pharmacy", "physiotherapist", "dentist"]),
   ("Social", ["community_center", "church", "mosque", "synagogue", "hindu_temple", "town_hall"])]

/-- `CATEGORY_PLACE_TYPES.get(category, ["point_of_interest"])`. -/
def categoryPlaceTypes (category : String) : List String :=
  (((CATEGORY_PLACE_TYPES.find? (fun e => e.1 = category)).map (·.2)).getD
    ["point_of_interest"])

/-- A raw place record from the Places API response.  `geometry` is `none`
when the record lacks the `geometry`/`location` keys (the `KeyError` case
of `_format_places`). -/
structure RawPlace where
  name : Option String
  vicinity : Option String
  geometry : Option (ℚ × ℚ)
  place_id : Option String
  types : List String
  rating : Option ℚ
  user_ratings_total : Option ℕ
  business_status : Option String

/-- Outcome of one `places_nearby` call: an exception (`ApiError`,
`Timeout`, `TransportError` or any other), or a response dictionary with
its `status` and `results` fields. -/
inductive TypeQueryOutcome where
  | apiFailure (msg : String)
  | response (status : String) (results : List RawPlace)

/-- One formatted entry of `_format_places`: `none` when the entry is
dropped for missing geometry; otherwise the formatted place, or the
propagating `ValidationError` from `Coordinates` construction. -/
def formatPlace (place : RawPlace) : Option (Except String Place) :=
  match place.geometry with
  | none => none
  | some (la, ln) =>
    some ((mkCoordinates la ln).map fun c =>
      { name := place.name.getD "Unknown Location"
        address := place.vicinity.getD ""
        coordinates := c
        place_id := place.place_id
        types := place.types
        rating := place.rating
        user_ratings_total := place.user_ratings_total.getD 0
        business_status := place.business_status.getD "OPERATIONAL" })

/-- `LocationService._format_places`: formats entries in order, silently
skipping entries without geometry; a coordinate validation error
propagates. -/
def format_places : List RawPlace → Except String (List Place)
  | [] => .ok []
  | p :: rest =>
    match formatPlace p with
    | none => format_places rest
    | some (.error e) => .error e
    | some (.ok fp) => (format_places rest).map (fp :: ·)

/-- The body of the per-type loop of `find_nearby_places`: an exception is
caught and skipped (`continue`); a response contributes its first 3 results
when the status is `OK` and the result list is non-empty (Python
truthiness of `results.get('results')`). -/
def perTypeStep (env : String → ℕ → TypeQueryOutcome) (radius : ℕ)
    (acc : List RawPlace) (t : String) : List RawPlace :=
  match env t radius with
  | .apiFailure _ => acc
  | .response status results =>
    if status = "OK" then
      if results.isEmpty then acc else acc ++ results.take 3
    else acc

/-- The body of `find_nearby_places` once the client is available: cap the
radius at 50000, query the first two of the category's place types,
truncate the concatenation to `max_results`, then format. -/
def find_nearby_places_available (env : String → ℕ → TypeQueryOutcome)
    (category : String) (radius : ℕ) (max_results : ℕ) : Except String (List Place) :=
  format_places ((((categoryPlaceTypes category).take 2).foldl
    (perTypeStep env (if 50000 < radius then 50000 else radius)) []).take max_results)

/-- `LocationService.find_nearby_places`.  `gmapsAvailable` models
`self.gmaps`; `env` is the Places-API oracle mapping a place type and the
radius to the outcome of its `places_nearby` call.  With no client the
method returns the empty list at once. -/
def find_nearby_places (gmapsAvailable : Bool) (env : String → ℕ → TypeQueryOutcome)
    (category : String) (radius : ℕ) (max_results : ℕ) : Except String (List Place) :=
  match gmapsAvailable with
  | false => .ok []
  | true => find_nearby_places_available env category radius max_results

theorem perTypeStep_length (env : String → ℕ → TypeQueryOutcome) (radius : ℕ)
    (acc : List RawPlace) (t : String) :
    (perTypeStep env radius acc t).length ≤ acc.length + 3 := by
  unfold perTypeStep
  rcases env t radius with _ | ⟨status, results⟩ <;> dsimp only
  · omega
  · split_ifs <;> try simp only [List.length_append, List.length_take]
    all_goals omega

theorem foldl_perTypeStep_length (env : String → ℕ → TypeQueryOutcome) (radius : ℕ) :
    ∀ (ts : List String) (acc : List RawPlace),
      (ts.foldl (perTypeStep env radius) acc).length ≤ acc.length + 3 * ts.length := by
  intro ts
  induction ts with
  | nil => intro acc; simp
  | cons t ts ih =>
      intro acc
      calc ((t :: ts).foldl (perTypeStep env radius) acc).length
          ≤ (perTypeStep env radius acc t).length + 3 * ts.length := ih _
        _ ≤ acc.length + 3 + 3 * ts.length := by
              have := perTypeStep_length env radius acc t
              omega
        _ = acc.length + 3 * (t :: ts).length := by simp [List.length_cons]; ring

theorem foldl_perTypeStep_all_fail (env : String → ℕ → TypeQueryOutcome) (radius : ℕ)
    (ts : List String) (acc : List RawPlace)
    (h : ∀ t ∈ ts, ∃ m, env t radius = .apiFailure m) :
    ts.foldl (perTypeStep env radius) acc = acc := by
  induction ts generalizing acc with
  | nil => rfl
  | cons t ts ih =>
      obtain ⟨m, hm⟩ := h t (List.mem_cons_self t ts)
      have hstep : perTypeStep env radius acc t = acc := by
        unfold perTypeStep
        rw [hm]
      simp only [List.foldl_cons, hstep]
      exact ih acc (fun u hu => h u (List.mem_cons_of_mem t hu))

theorem foldl_perTypeStep_congr (env env2 : String → ℕ → TypeQueryOutcome) (radius : ℕ)
    (ts : List String) (acc : List RawPlace)
    (h : ∀ t ∈ ts, env t radius = env2 t radius) :
    ts.foldl (perTypeStep env radius) acc = ts.foldl (perTypeStep env2 radius) acc := by
  induction ts generalizing acc with
  | nil => rfl
  | cons t ts ih =>
      have hstep : perTypeStep env radius acc t = perTypeStep env2 radius acc t := by
        unfold perTypeStep
        rw [h t (List.mem_cons_self t ts)]
      simp only [List.foldl_cons, hstep]
      exact ih _ (fun u hu => h u (List.mem_cons_of_mem t hu))

theorem foldl_perTypeStep_ext (envA envB : String → ℕ → TypeQueryOutcome) (radius : ℕ)
    (ts : List String) (acc : List RawPlace)
    (h : ∀ (a : List RawPlace) (t : String), t ∈ ts →
      perTypeStep envA radius a t = perTypeStep envB radius a t) :
    ts.foldl (perTypeStep envA radius) acc = ts.foldl (perTypeStep envB radius) acc := by
  induction ts generalizing acc with
  | nil => rfl
  | cons t ts ih =>
      simp only [List.foldl_cons, h acc t (List.mem_cons_self t ts)]
      exact ih _ (fun a u hu => h a u (List.mem_cons_of_mem t hu))

theorem format_places_length :
    ∀ (l : List RawPlace) (fl : List Place), format_places l = .ok fl → fl.length ≤ l.length := by
  intro l
  induction l with
  | nil =>
      intro fl h
      cases h
      simp
  | cons p rest ih =>
      intro fl h
      unfold format_places at h
      rcases hf : formatPlace p with _ | fp <;> rw [hf] at h
      · have := ih fl h
        simp only [List.length_cons]
        omega
      · rcases fp with e | q
        · cases h
        · rcases hrest : format_places rest with e | frest <;> rw [hrest] at h
          · cases h
          · have h2 : Except.ok (q :: frest) = (Except.ok fl : Except String (List Place)) := h
            cases h2
            have := ih frest hrest
            simp only [List.length_cons]
            omega

/-- C7: in `find_nearby_places` a failing per-type query is skipped exactly
like a benign non-OK response, without aborting the search over the
remaining types; when every per-type query fails the function returns the
empty list rather than raising; the result depends only on the first two
types of the category's type list (at most two queries); and every
returned list has length at most `max_results` and at most 3 results per
queried type. -/
theorem find_nearby_places_error_resilience
    (gm : Bool) (env env2 : String → ℕ → TypeQueryOutcome) (category t0 : String)
    (radius max_results : ℕ) :
    ((∀ t r, ∃ m, env t r = .apiFailure m) →
      find_nearby_places gm env category radius max_results = .ok []) ∧
    (∀ l, find_nearby_places gm env category radius max_results = .ok l →
      l.length ≤ max_results ∧ l.length ≤ 3 * ((categoryPlaceTypes category).take 2).length) ∧
    ((∀ t ∈ (categoryPlaceTypes category).take 2, ∀ r, env t r = env2 t r) →
      find_nearby_places gm env category radius max_results =
        find_nearby_places gm env2 category radius max_results) ∧
    (find_nearby_places gm (fun t r => if t = t0 then .apiFailure "timeout" else env t r)
        category radius max_results =
      find_nearby_places gm
        (fun t r => if t = t0 then .response "UNKNOWN_ERROR" [] else env t r)
        category radius max_results) := by
  refine ⟨?_, ?_, ?_, ?_⟩
  · intro hall
    cases gm with
    | false => rfl
    | true =>
        show find_nearby_places_available _ _ _ _ = _
        unfold find_nearby_places_available
        rw [foldl_perTypeStep_all_fail _ _ _ _ (fun t _ => hall t _), List.take_nil]
        rfl
  · intro l hl
    cases gm with
    | false =>
        have h2 : Except.ok [] = (Except.ok l : Except String (List Place)) := hl
        cases h2
        simp
    | true =>
        replace hl : find_nearby_places_available env category radius max_results = .ok l := hl
        unfold find_nearby_places_available at hl
        have hfmt := format_places_length _ l hl
        have h1 : (((categoryPlaceTypes category).take 2).foldl
            (perTypeStep env (if 50000 < radius then 50000 else radius)) []).length
            ≤ 3 * ((categoryPlaceTypes category).take 2).length := by
          have := foldl_perTypeStep_length env (if 50000 < radius then 50000 else radius)
            ((categoryPlaceTypes category).take 2) []
          simpa using this
        constructor
        · calc l.length ≤ _ := hfmt
            _ ≤ max_results := by
                rw [List.length_take]
                omega
        · calc l.length ≤ _ := hfmt
            _ ≤ _ := by
                rw [List.length_take]
                exact le_trans (min_le_right _ _) h1
  · intro hagree
    cases gm with
    | false => rfl
    | true =>
        show find_nearby_places_available _ _ _ _ = find_nearby_places_available _ _ _ _
        unfold find_nearby_places_available
        rw [foldl_perTypeStep_congr env env2 _ _ _ (fun t ht => hagree t ht _)]
  · cases gm with
    | false => rfl
    | true =>
        show find_nearby_places_available _ _ _ _ = find_nearby_places_available _ _ _ _
        unfold find_nearby_places_available
        rw [foldl_perTypeStep_ext _ _ _ _ _ ?_]
        intro a t _
        unfold perTypeStep
        dsimp only
        rcases eq_or_ne t t0 with h | h
        · rw [if_pos h, if_pos h]
          rfl
        · rw [if_neg h, if_neg h]

/-- Witness for C7: with every per-type query timing out, the search for
the Environment category returns the empty list, within all bounds. -/
theorem find_nearby_places_error_resilience_witness :
    find_nearby_places true (fun _ _ => .apiFailure "timeout") "Environment" 3000 5
      = .ok [] ∧
    find_nearby_places true (fun _ _ => .apiFailure "timeout") "Environment" 3000 5 =
      find_nearby_places true (fun _ _ => .response "OVER_QUERY_LIMIT" [])
        "Environment" 3000 5 := by
  have h := find_nearby_places_error_resilience true
    (fun _ _ => .apiFailure "timeout") (fun _ _ => .response "OVER_QUERY_LIMIT" [])
    "Environment" "park" 3000 5
  have h1 := h.1 (fun t r => ⟨"timeout", rfl⟩)
  refine ⟨h1, ?_⟩
  have h3 := (find_nearby_places_error_resilience true
    (fun _ _ => .response "OVER_QUERY_LIMIT" []) (fun _ _ => .response "OVER_QUERY_LIMIT" [])
    "Environment" "park" 3000 5).1
  rw [h1]
  rfl

/-! ## `VisionVerifier.verify_quest_proof` (`backend/vision_agent.py`) -/

/-- A successfully parsed verification response carrying the schema's
required fields; `key_observations` is the one optional field. -/
structure ParsedVerification where
  confidence_score : ℚ
  verification_result : String
  reasoning : String
  suggested_points : ℤ
  key_observations : Option (List String)

/-- Environment of one `verify_quest_proof` call: any exception raised
inside the `try` block (image file read error, transport error, malformed
or schema-non-conformant response text) with its message, or the parsed
response object. -/
inductive VisionOutcome where
  | fileError (msg : String)
  | transportError (msg : String)
  | malformedResponse (msg : String)
  | parsed (r : ParsedVerification)

/-- The dictionary returned by `verify_quest_proof`. -/
structure VerificationOutcome where
  confidence_score : ℚ
  verification_result : String
  reasoning : String
  suggested_points : ℤ
  key_observations : List String

/-- The fallback response of the `except` branch of `verify_quest_proof`. -/
def verificationFallback (msg : String) : VerificationOutcome :=
  ⟨0, "Unclear", "Error during verification: " ++ msg ++ ". Please try again.", 0, []⟩

/-- `VisionVerifier.verify_quest_proof`: on success, forwards the parsed
fields unchanged (with `[]` for an absent observation list); on any
failure, returns the fallback outcome.  The verdict is the model-reported
`verification_result`; the code never recomputes it from the confidence. -/
def verify_quest_proof (env : VisionOutcome) : VerificationOutcome :=
  match env with
  | .fileError m => verificationFallback m
  | .transportError m => verificationFallback m
  | .malformedResponse m => verificationFallback m
  | .parsed r =>
      ⟨r.confidence_score, r.verification_result, r.reasoning, r.suggested_points,
        r.key_observations.getD []⟩

/-- Text of `_create_verification_prompt` up to the verification-criteria
block. -/
def promptBeforePolicy (quest_title quest_description quest_category
    user_description : String) : String :=
  "You are an expert AI verifier for community impact quests. Your job is to analyze an image submission and determine if it genuinely proves the completion of a quest.\n\n**QUEST INFORMATION:**\n- Title: " ++ quest_title ++
  "\n- Description: " ++ quest_description ++
  "\n- Category: " ++ quest_category ++
  "\n\n**USER'S DESCRIPTION:**\n" ++
  (if user_description = "" then "No description provided" else user_description) ++
  "\n\n**YOUR TASK:**\nCarefully examine the image and evaluate the following:\n\n1. **Authenticity**: Does the image appear to be genuine (not AI-generated, not stock photo)?\n2. **Relevance**: Does the image directly relate to the quest objective?\n3. **Completion Evidence**: Does the image prove that the quest was actually completed?\n4. **Impact Quality**: Based on what you see, how significant is the community impact?\n5. **Safety & Appropriateness**: Is the content safe, appropriate, and aligned with positive community values?\n\n"

/-- The confidence-threshold policy block of the verification prompt: the
only place the thresholds appear; the service is asked to self-apply
them. -/
def verificationPolicyText : String :=
  "**VERIFICATION CRITERIA:**\n- ✅ **Verified** (confidence > 0.7): Clear evidence of quest completion with authentic, relevant proof\n- ⚠️  **Unclear** (confidence 0.3-0.7): Some evidence but missing key elements or unclear authenticity\n- ❌ **Rejected** (confidence < 0.3): No clear evidence, irrelevant image, or inappropriate content\n\n"

/-- Text of `_create_verification_prompt` after the verification-criteria
block. -/
def promptAfterPolicy : String :=
  "**POINTS CALCULATION:**\n- Exceptional impact with perfect evidence: 80-100 points\n- Good impact with solid evidence: 50-79 points\n- Moderate impact or partial evidence: 20-49 points\n- Minimal/unclear evidence: 0-19 points\n\n**IMPORTANT:**\n- Be encouraging but honest in your assessment\n- If unsure, provide constructive feedback on what is missing\n- Consider the quest category when evaluating impact\n- Reward genuine effort and authentic proof\n\nProvide your analysis in JSON format with confidence_score, verification_result, reasoning, suggested_points, and key_observations.\n"

/-- `VisionVerifier._create_verification_prompt`. -/
def create_verification_prompt (quest_title quest_description quest_category
    user_description : String) : String :=
  promptBeforePolicy quest_title quest_description quest_category user_description ++
    verificationPolicyText ++ promptAfterPolicy

/-- C4: any error during verification (file read, transport, malformed
response) yields exactly the fallback outcome — confidence 0.0, verdict
Unclear, descriptive reasoning, 0 suggested points, empty observation
list — and never raises. -/
theorem verify_quest_proof_error_fallback (m : String) :
    verify_quest_proof (.fileError m) =
      ⟨0, "Unclear", "Error during verification: " ++ m ++ ". Please try again.", 0, []⟩ ∧
    verify_quest_proof (.transportError m) =
      ⟨0, "Unclear", "Error during verification: " ++ m ++ ". Please try again.", 0, []⟩ ∧
    verify_quest_proof (.malformedResponse m) =
      ⟨0, "Unclear", "Error during verification: " ++ m ++ ". Please try again.", 0, []⟩ :=
  ⟨rfl, rfl, rfl⟩

/-- C3 counterexample: a service response with confidence 0.9 and verdict
"Rejected" is returned as-is — the outcome's verdict is not the "Verified"
that the claimed confidence-threshold rule would force. -/
theorem verdict_not_determined_by_confidence :
    (verify_quest_proof (.parsed ⟨9/10, "Rejected", "image mismatch", 10, some []⟩)).confidence_score = 9/10 ∧
    ((7:ℚ)/10 < 9/10) ∧
    (verify_quest_proof (.parsed ⟨9/10, "Rejected", "image mismatch", 10, some []⟩)).verification_result = "Rejected" ∧
    (verify_quest_proof (.parsed ⟨9/10, "Rejected", "image mismatch", 10, some []⟩)).verification_result ≠ "Verified" := by
  refine ⟨rfl, by norm_num, rfl, by decide⟩

/-- C3 amended: the verdict in the returned outcome is the service-reported
verdict, passed through unchanged together with the confidence — the
threshold policy (0.7 / 0.3 boundaries) is stated in the verification
prompt for the service to self-apply, not enforced by the code. -/
theorem verdict_passthrough_policy_in_prompt (r : ParsedVerification)
    (qt qd qc ud : String) :
    (verify_quest_proof (.parsed r)).verification_result = r.verification_result ∧
    (verify_quest_proof (.parsed r)).confidence_score = r.confidence_score ∧
    (verify_quest_proof (.parsed r)).suggested_points = r.suggested_points ∧
    ∃ pre post, create_verification_prompt qt qd qc ud =
      pre ++ verificationPolicyText ++ post :=
  ⟨rfl, rfl, rfl, promptBeforePolicy qt qd qc ud, promptAfterPolicy, rfl⟩

/-! ## `CommunityArchitect` (`backend/agents.py`) -/

/-- `ImpactQuest` pydantic model (`models.py`): quest record with validated
title (5-100 chars) and description (at least 20 chars). -/
structure ImpactQuest where
  quest_id : String
  title : String
  description : String
  difficulty : Difficulty
  impact_metric : String
  location : Coordinates
  category : ResolutionCategory
  estimated_time : Option String
  community_benefit : Option String

/-- Pydantic construction of `ImpactQuest`: validates the length
constraints (`title` min 5 max 100, `description` min 20), raising a
`ValidationError` (here `.error`) on violation. -/
def mkImpactQuest (quest_id title description : String) (difficulty : Difficulty)
    (impact_metric : String) (location : Coordinates) (category : ResolutionCategory)
    (estimated_time community_benefit : Option String) : Except String ImpactQuest :=
  if title.length < 5 then .error "ValidationError: title too short"
  else if 100 < title.length then .error "ValidationError: title too long"
  else if description.length < 20 then .error "ValidationError: description too short"
  else .ok ⟨quest_id, title, description, difficulty, impact_metric, location, category,
    estimated_time, community_benefit⟩

theorem mkImpactQuest_ok_of_valid (quest_id title description : String)
    (difficulty : Difficulty) (impact_metric : String) (location : Coordinates)
    (category : ResolutionCategory) (estimated_time community_benefit : Option String)
    (h5 : 5 ≤ title.length) (h100 : title.length ≤ 100) (h20 : 20 ≤ description.length) :
    mkImpactQuest quest_id title description difficulty impact_metric location category
      estimated_time community_benefit =
    .ok ⟨quest_id, title, description, difficulty, impact_metric, location, category,
      estimated_time, community_benefit⟩ := by
  unfold mkImpactQuest
  rw [if_neg (by omega), if_neg (by omega), if_neg (by omega)]

theorem mkImpactQuest_ok_fields (quest_id title description : String)
    (difficulty : Difficulty) (impact_metric : String) (location : Coordinates)
    (category : ResolutionCategory) (estimated_time community_benefit : Option String)
    (q : ImpactQuest)
    (h : mkImpactQuest quest_id title description difficulty impact_metric location category
      estimated_time community_benefit = .ok q) :
    q.location = location ∧ q.quest_id = quest_id ∧ q.title = title := by
  unfold mkImpactQuest at h
  split_ifs at h
  cases h
  exact ⟨rfl, rfl, rfl⟩

/-- Stable insertion for descending sort by quality score: the new element
goes after every element with a strictly greater score and before every
element with an equal or smaller one. -/
def insertDesc (x : Place) : List Place → List Place
  | [] => [x]
  | y :: ys =>
    if calculate_place_quality_score x < calculate_place_quality_score y then
      y :: insertDesc x ys
    else x :: y :: ys

/-- `sorted(nearby_places, key=calculate_place_quality_score, reverse=True)`
of `generate_quest`: Python's `sorted` is a stable sort, and `reverse=True`
keeps equal-scoring elements in their original order, which this stable
insertion sort realises. -/
def rankPlaces : List Place → List Place
  | [] => []
  | x :: xs => insertDesc x (rankPlaces xs)

/-- `ranked_places[:3]`, the candidate list embedded in the prompt offered
to the generative service. -/
def candidatePlaces (nearby_places : List Place) : List Place :=
  (rankPlaces nearby_places).take 3

theorem insertDesc_perm (x : Place) (l : List Place) :
    List.Perm (insertDesc x l) (x :: l) := by
  induction l with
  | nil => rfl
  | cons y ys ih =>
      unfold insertDesc
      split_ifs
      · exact ((ih.cons y).trans (List.Perm.swap x y ys))
      · rfl

theorem rankPlaces_perm (l : List Place) : List.Perm (rankPlaces l) l := by
  induction l with
  | nil => rfl
  | cons x xs ih => exact (insertDesc_perm x (rankPlaces xs)).trans (ih.cons x)

theorem rankPlaces_length (l : List Place) : (rankPlaces l).length = l.length :=
  (rankPlaces_perm l).length_eq

theorem insertDesc_sorted (x : Place) (l : List Place)
    (h : l.Pairwise (fun a b =>
      calculate_place_quality_score b ≤ calculate_place_quality_score a)) :
    (insertDesc x l).Pairwise (fun a b =>
      calculate_place_quality_score b ≤ calculate_place_quality_score a) := by
  induction l with
  | nil => simp [insertDesc]
  | cons y ys ih =>
      rw [List.pairwise_cons] at h
      unfold insertDesc
      split_ifs with hlt
      · rw [List.pairwise_cons]
        refine ⟨?_, ih h.2⟩
        intro a ha
        rcases List.mem_cons.mp ((insertDesc_perm x ys).mem_iff.mp ha) with rfl | ha2
        · exact le_of_lt hlt
        · exact h.1 a ha2
      · rw [List.pairwise_cons]
        refine ⟨?_, List.pairwise_cons.mpr h⟩
        intro a ha
        rcases List.mem_cons.mp ha with rfl | ha
        · exact le_of_not_lt hlt
        · exact le_trans (h.1 a ha) (le_of_not_lt hlt)

theorem rankPlaces_sorted (l : List Place) :
    (rankPlaces l).Pairwise (fun a b =>
      calculate_place_quality_score b ≤ calculate_place_quality_score a) := by
  induction l with
  | nil => simp [rankPlaces]
  | cons x xs ih => exact insertDesc_sorted x (rankPlaces xs) ih

theorem insertDesc_of_ge (x : Place) (l : List Place)
    (h : ∀ a ∈ l, calculate_place_quality_score a ≤ calculate_place_quality_score x) :
    insertDesc x l = x :: l := by
  cases l with
  | nil => rfl
  | cons y ys =>
      unfold insertDesc
      rw [if_neg (not_lt.mpr (h y (List.mem_cons_self y ys)))]

theorem rankPlaces_sorted_fixed (l : List Place)
    (h : l.Pairwise (fun a b =>
      calculate_place_quality_score b ≤ calculate_place_quality_score a)) :
    rankPlaces l = l := by
  induction l with
  | nil => rfl
  | cons x xs ih =>
      rw [List.pairwise_cons] at h
      unfold rankPlaces
      rw [ih h.2]
      exact insertDesc_of_ge x xs h.1

theorem filter_insertDesc (x : Place) (l : List Place) (s : ℚ) :
    (insertDesc x l).filter (fun p => decide (calculate_place_quality_score p = s)) =
      if calculate_place_quality_score x = s then
        x :: l.filter (fun p => decide (calculate_place_quality_score p = s))
      else l.filter (fun p => decide (calculate_place_quality_score p = s)) := by
  induction l with
  | nil =>
      show List.filter _ [x] = _
      rw [List.filter_cons]
      rcases eq_or_ne (calculate_place_quality_score x) s with hx | hx <;> simp [hx]
  | cons y ys ih =>
      unfold insertDesc
      by_cases hlt : calculate_place_quality_score x < calculate_place_quality_score y
      · rw [if_pos hlt, List.filter_cons, ih]
        rcases eq_or_ne (calculate_place_quality_score x) s with hx | hx <;>
          rcases eq_or_ne (calculate_place_quality_score y) s with hy | hy
        · rw [hx, hy] at hlt
          exact absurd hlt (lt_irrefl s)
        · simp [hx, hy, List.filter_cons]
        · simp [hx, hy, List.filter_cons]
        · simp [hx, hy, List.filter_cons]
      · rw [if_neg hlt, List.filter_cons]
        rcases eq_or_ne (calculate_place_quality_score x) s with hx | hx <;>
          simp [hx]

theorem rankPlaces_stable (l : List Place) (s : ℚ) :
    (rankPlaces l).filter (fun p => decide (calculate_place_quality_score p = s)) =
      l.filter (fun p => decide (calculate_place_quality_score p = s)) := by
  induction l with
  | nil => rfl
  | cons x xs ih =>
      unfold rankPlaces
      rw [filter_insertDesc, List.filter_cons]
      rcases eq_or_ne (calculate_place_quality_score x) s with hx | hx <;> simp [hx, ih]

/-- Parsed JSON object of the location-aware generation response.
`selected_location_index` is `none` when the field is absent from the
parsed object (the `.get` default case); the other required fields are
present by parse success, the optional ones may be absent. -/
structure QuestData where
  selected_location_index : Option ℤ
  title : String
  description : String
  difficulty : String
  impact_metric : String
  estimated_time : Option String
  community_benefit : Option String

/-- Outcome of one generative call plus `json.loads`: any raised exception
(transport error, unparsable or schema-non-conformant text, missing
required key) with its message, or the parsed object. -/
inductive GenResponse where
  | failure (msg : String)
  | parsed (data : QuestData)

/-- Environment of one `generate_quest` call: the discovery call's result
(`.error` when `find_nearby_places` raised), the outcomes of the two
possible generative calls, the reverse-geocode result consulted by the
traditional path (`reverse_geocode` itself never raises), and the
generated quest id. -/
structure GenEnv where
  discovery : Except String (List Place)
  aiLocationAware : GenResponse
  aiTraditional : GenResponse
  geocodeName : Option String
  questId : String

/-- The dictionary `generate_quest` returns: the quest plus location
provenance metadata. -/
structure GenerationOutcome where
  quest : ImpactQuest
  location_name : String
  location_address : String
  place_id : Option String

/-- One entry of the static `fallback_quests` dictionary of
`_generate_fallback_quest`. -/
structure FallbackTemplate where
  title : String
  description : String
  impact_metric : String
  estimated_time : String

/-- The static category-keyed `fallback_quests` dictionary. -/
def fallback_quests : ResolutionCategory → FallbackTemplate
  | .environment =>
      ⟨"Community Park Cleanup",
       "Organize a cleanup event at a local park. Remove litter, plant flowers, and create a cleaner environment for everyone.",
       "Clean 200 sq meters of public space", "2-3 hours"⟩
  | .social =>
      ⟨"Community Meal Sharing",
       "Organize a community meal event where neighbors can share food and connect. Promote social cohesion and reduce isolation.",
       "Bring together 20+ community members", "3-4 hours"⟩
  | .education =>
      ⟨"Free Tutoring Sessions",
       "Provide free tutoring to local students in math or reading. Help improve academic performance in your community.",
       "Tutor 5-10 students for 2 weeks", "2 hours per week"⟩
  | .health =>
      ⟨"Community Fitness Walk",
       "Organize weekly walking groups to promote physical activity and wellness in your community.",
       "15+ participants per walk", "1 hour per session"⟩

/-- `CommunityArchitect._generate_fallback_quest`: instantiate the
category's static template at the original coordinates with medium
difficulty and the generic community-benefit string. -/
def generate_fallback_quest (questId : String) (coordinates : Coordinates)
    (category : ResolutionCategory) : Except String ImpactQuest :=
  mkImpactQuest questId (fallback_quests category).title
    (fallback_quests category).description .medium
    (fallback_quests category).impact_metric coordinates category
    (some (fallback_quests category).estimated_time)
    (some "Strengthens community bonds and creates positive local impact")

/-- Python `x or default` on an optional string: `None` and the empty
string are both falsy. -/
def pyOrString (s : Option String) (d : String) : String :=
  match s with
  | none => d
  | some v => if v = "" then d else v

/-- The final-fallback return value of `_generate_quest_traditional`:
the hardcoded quest with the static location label. -/
def hardcodedFallbackOutcome (questId : String) (coordinates : Coordinates)
    (category : ResolutionCategory) : Except String GenerationOutcome :=
  (generate_fallback_quest questId coordinates category).map
    (fun q => ⟨q, "Ibadan, Nigeria", "", none⟩)

/-- `CommunityArchitect._generate_quest_traditional`: ask the generative
service with the coordinate-only prompt; on success construct the quest at
the original coordinates with a best-effort geocoded label; any exception
in the `try` block (call failure, invalid difficulty value, quest
validation error) falls through to the hardcoded template quest. -/
def generate_quest_traditional (env : GenEnv) (coordinates : Coordinates)
    (category : ResolutionCategory) : Except String GenerationOutcome :=
  match env.aiTraditional with
  | .failure _ => hardcodedFallbackOutcome env.questId coordinates category
  | .parsed qd =>
    match Difficulty.ofString qd.difficulty with
    | none => hardcodedFallbackOutcome env.questId coordinates category
    | some d =>
      match mkImpactQuest env.questId qd.title qd.description d qd.impact_metric
          coordinates category qd.estimated_time qd.community_benefit with
      | .error _ => hardcodedFallbackOutcome env.questId coordinates category
      | .ok q => .ok ⟨q, pyOrString env.geocodeName "Ibadan, Nigeria", "", none⟩

/-- `selected_index = max(0, min(quest_data.get("selected_location_index", 0),
len(ranked_places) - 1))`: the bounds check of `generate_quest`, clamping
into the range of the full ranked list. -/
def clampedIndex (si : Option ℤ) (n : ℕ) : ℤ :=
  max 0 (min (si.getD 0) ((n : ℤ) - 1))

/-- `ranked_places[selected_index]` together with the clamp; the default
is irrelevant because the clamped index is in bounds for a non-empty
list. -/
def selectedPlace (qd : QuestData) (nearby : List Place) (dflt : Place) : Place :=
  (rankPlaces nearby).getD
    (clampedIndex qd.selected_location_index (rankPlaces nearby).length).toNat dflt

/-- The real-place branch of `generate_quest` (STEP 3 through STEP 7),
entered when discovery produced at least one place: rank, ask the
generative service against the top-3 candidates, clamp the returned
selection index, and construct the quest at the exact coordinates of the
selected place; any exception in the `try` block falls back to
`_generate_quest_traditional`. -/
def generate_quest_with_places (env : GenEnv) (coordinates : Coordinates)
    (category : ResolutionCategory) (p0 : Place) (rest : List Place) :
    Except String GenerationOutcome :=
  match env.aiLocationAware with
  | .failure _ => generate_quest_traditional env coordinates category
  | .parsed qd =>
    match Difficulty.ofString qd.difficulty with
    | none => generate_quest_traditional env coordinates category
    | some d =>
      match mkImpactQuest env.questId qd.title qd.description d qd.impact_metric
          (selectedPlace qd (p0 :: rest) p0).coordinates category
          qd.estimated_time qd.community_benefit with
      | .error _ => generate_quest_traditional env coordinates category
      | .ok q =>
          .ok ⟨q, (selectedPlace qd (p0 :: rest) p0).name,
            (selectedPlace qd (p0 :: rest) p0).address,
            (selectedPlace qd (p0 :: rest) p0).place_id⟩

/-- `CommunityArchitect.generate_quest`: a discovery error is caught and
treated as no nearby places; with no places the traditional path runs;
otherwise the real-place path runs. -/
def generate_quest (env : GenEnv) (coordinates : Coordinates)
    (category : ResolutionCategory) : Except String GenerationOutcome :=
  match (match env.discovery with | .error _ => [] | .ok ps => ps) with
  | [] => generate_quest_traditional env coordinates category
  | p0 :: rest => generate_quest_with_places env coordinates category p0 rest

theorem generate_fallback_quest_ok (questId : String) (coordinates : Coordinates)
    (category : ResolutionCategory) :
    ∃ q, generate_fallback_quest questId coordinates category = .ok q ∧
      q.location = coordinates ∧ q.difficulty = .medium := by
  cases category <;>
    exact ⟨_, mkImpactQuest_ok_of_valid _ _ _ _ _ _ _ _ _ (by decide) (by decide) (by decide),
      rfl, rfl⟩

theorem hardcodedFallbackOutcome_ok (questId : String) (coordinates : Coordinates)
    (category : ResolutionCategory) :
    ∃ o, hardcodedFallbackOutcome questId coordinates category = .ok o ∧
      o.quest.location = coordinates := by
  obtain ⟨q, hq, hloc, _⟩ := generate_fallback_quest_ok questId coordinates category
  exact ⟨⟨q, "Ibadan, Nigeria", "", none⟩, by unfold hardcodedFallbackOutcome; rw [hq]; rfl, hloc⟩

theorem generate_quest_traditional_ok (env : GenEnv) (coordinates : Coordinates)
    (category : ResolutionCategory) :
    (∃ o, generate_quest_traditional env coordinates category = .ok o) ∧
    (∀ o, generate_quest_traditional env coordinates category = .ok o →
      o.quest.location = coordinates) := by
  obtain ⟨o0, ho0, hloc0⟩ := hardcodedFallbackOutcome_ok env.questId coordinates category
  unfold generate_quest_traditional
  rcases env.aiTraditional with m | qd
  · exact ⟨⟨o0, ho0⟩, fun o ho => by rw [ho0] at ho; cases ho; exact hloc0⟩
  · dsimp only
    rcases Difficulty.ofString qd.difficulty with _ | d
    · exact ⟨⟨o0, ho0⟩, fun o ho => by rw [ho0] at ho; cases ho; exact hloc0⟩
    · dsimp only
      rcases hmk : mkImpactQuest env.questId qd.title qd.description d qd.impact_metric
          coordinates category qd.estimated_time qd.community_benefit with e | q
      · exact ⟨⟨o0, ho0⟩, fun o ho => by rw [ho0] at ho; cases ho; exact hloc0⟩
      · refine ⟨⟨_, rfl⟩, fun o ho => ?_⟩
        cases ho
        exact (mkImpactQuest_ok_fields _ _ _ _ _ _ _ _ _ _ hmk).1

theorem generate_quest_parsed_ok (env : GenEnv) (coordinates : Coordinates)
    (category : ResolutionCategory) (p0 : Place) (rest : List Place) (qd : QuestData)
    (d : Difficulty)
    (hdisc : env.discovery = .ok (p0 :: rest))
    (hai : env.aiLocationAware = .parsed qd)
    (hdiff : Difficulty.ofString qd.difficulty = some d)
    (ht1 : 5 ≤ qd.title.length) (ht2 : qd.title.length ≤ 100)
    (hd20 : 20 ≤ qd.description.length) :
    generate_quest env coordinates category =
      .ok ⟨⟨env.questId, qd.title, qd.description, d, qd.impact_metric,
        (selectedPlace qd (p0 :: rest) p0).coordinates, category,
        qd.estimated_time, qd.community_benefit⟩,
        (selectedPlace qd (p0 :: rest) p0).name,
        (selectedPlace qd (p0 :: rest) p0).address,
        (selectedPlace qd (p0 :: rest) p0).place_id⟩ := by
  unfold generate_quest
  rw [hdisc]
  dsimp only
  unfold generate_quest_with_places
  rw [hai]
  dsimp only
  rw [hdiff]
  dsimp only
  rw [mkImpactQuest_ok_of_valid _ _ _ _ _ _ _ _ _ ht1 ht2 hd20]

/-- C1: `generate_quest` never raises to its caller — every failure path
(discovery error, empty discovery result, generative-call or parse
failure, fallback failure) terminates in a returned outcome; and when
place discovery returns an empty sequence, the returned outcome's quest
location equals the original input coordinates. -/
theorem generate_quest_never_raises (env : GenEnv) (coordinates : Coordinates)
    (category : ResolutionCategory) :
    (∃ o, generate_quest env coordinates category = .ok o) ∧
    (env.discovery = .ok [] →
      ∀ o, generate_quest env coordinates category = .ok o →
        o.quest.location = coordinates) := by
  constructor
  · unfold generate_quest
    rcases env.discovery with e | ps
    · exact (generate_quest_traditional_ok env coordinates category).1
    · dsimp only
      cases ps with
      | nil => exact (generate_quest_traditional_ok env coordinates category).1
      | cons p0 rest =>
          unfold generate_quest_with_places
          rcases env.aiLocationAware with m | qd
          · exact (generate_quest_traditional_ok env coordinates category).1
          · dsimp only
            rcases Difficulty.ofString qd.difficulty with _ | d
            · exact (generate_quest_traditional_ok env coordinates category).1
            · dsimp only
              rcases mkImpactQuest env.questId qd.title qd.description d qd.impact_metric
                  (selectedPlace qd (p0 :: rest) p0).coordinates category
                  qd.estimated_time qd.community_benefit with e | q
              · exact (generate_quest_traditional_ok env coordinates category).1
              · exact ⟨_, rfl⟩
  · intro hdisc o ho
    unfold generate_quest at ho
    rw [hdisc] at ho
    exact (generate_quest_traditional_ok env coordinates category).2 o ho

/-- All-failure environment: discovery finds nothing, both generative
calls fail, geocoding finds nothing. -/
def envAllDown : GenEnv :=
  ⟨.ok [], .failure "service down", .failure "service down", none, "quest_1"⟩

/-- Witness for C1: with all services down, generation still returns an
outcome anchored at the input coordinates. -/
theorem generate_quest_never_raises_witness :
    (∃ o, generate_quest envAllDown coordIbadan .environment = .ok o) ∧
    (generate_quest envAllDown coordIbadan .environment).toOption.map
      (fun o => o.quest.location.lat) = some (73775/10000) := by
  have h := generate_quest_never_raises envAllDown coordIbadan .environment
  obtain ⟨o, ho⟩ := h.1
  have hloc := h.2 rfl o ho
  refine ⟨⟨o, ho⟩, ?_⟩
  rw [ho]
  simp only [Except.toOption, Option.map]
  rw [hloc]
  rfl

/-- C2 amended: the selection index returned by the generative service is
clamped into [0, D-1] where D is the number of discovered places (not
min(3, D)-1, the top-3 candidate range offered to the service); the
subsequent indexing is therefore always in bounds and never raises, and
the constructed quest's location equals the exact coordinates of the
ranked place at the clamped index. -/
theorem clamped_index_in_discovered_range (env : GenEnv) (coordinates : Coordinates)
    (category : ResolutionCategory) (p0 : Place) (rest : List Place) (qd : QuestData)
    (d : Difficulty)
    (hdisc : env.discovery = .ok (p0 :: rest))
    (hai : env.aiLocationAware = .parsed qd)
    (hdiff : Difficulty.ofString qd.difficulty = some d)
    (ht1 : 5 ≤ qd.title.length) (ht2 : qd.title.length ≤ 100)
    (hd20 : 20 ≤ qd.description.length) :
    0 ≤ clampedIndex qd.selected_location_index (p0 :: rest).length ∧
    (clampedIndex qd.selected_location_index (p0 :: rest).length).toNat
      < (p0 :: rest).length ∧
    selectedPlace qd (p0 :: rest) p0 =
      (rankPlaces (p0 :: rest)).getD
        (clampedIndex qd.selected_location_index (p0 :: rest).length).toNat p0 ∧
    (∃ o, generate_quest env coordinates category = .ok o) ∧
    (∀ o, generate_quest env coordinates category = .ok o →
      o.quest.location = (selectedPlace qd (p0 :: rest) p0).coordinates) := by
  have hmain := generate_quest_parsed_ok env coordinates category p0 rest qd d
    hdisc hai hdiff ht1 ht2 hd20
  refine ⟨le_max_left 0 _, ?_, ?_, ⟨_, hmain⟩, ?_⟩
  · have h1 : clampedIndex qd.selected_location_index (p0 :: rest).length
        ≤ ((p0 :: rest).length : ℤ) - 1 := by
      unfold clampedIndex
      apply max_le
      · rw [List.length_cons]
        push_cast
        omega
      · exact min_le_right _ _
    have h2 : (0:ℤ) ≤ clampedIndex qd.selected_location_index (p0 :: rest).length :=
      le_max_left 0 _
    omega
  · unfold selectedPlace
    rw [rankPlaces_length]
  · intro o ho
    rw [hmain] at ho
    cases ho
    rfl

/-- The parsed location-aware response used in single-candidate witnesses:
an out-of-range index 7 with otherwise valid quest fields. -/
def qdIndexSeven : QuestData :=
  ⟨some 7, "Old Depot Revival Day", "Organize a neighborhood effort to clean and repaint the old depot building.",
    "Medium", "Repaint 100 sq meters", none, none⟩

/-- Environment for the C2 witness: one discovered place and a response
selecting index 7. -/
def envIndexSeven : GenEnv :=
  ⟨.ok [zeroPlace], .parsed qdIndexSeven, .failure "unused", none, "quest_2"⟩

/-- Witness for C2 (amended) with one discovered place and index 7: the
clamped index is 0, in bounds, and the quest is anchored at that place. -/
theorem clamped_index_in_discovered_range_witness :
    (clampedIndex qdIndexSeven.selected_location_index [zeroPlace].length).toNat
      < [zeroPlace].length ∧
    (generate_quest envIndexSeven coordIbadan .environment).toOption.map
      (fun o => o.quest.location.lat) = some (73775/10000) := by
  have h := clamped_index_in_discovered_range envIndexSeven coordIbadan .environment
    zeroPlace [] qdIndexSeven .medium rfl rfl rfl (by decide) (by decide) (by decide)
  obtain ⟨o, ho⟩ := h.2.2.2.1
  have hloc := h.2.2.2.2 o ho
  refine ⟨h.2.1, ?_⟩
  rw [ho]
  simp only [Except.toOption, Option.map]
  rw [hloc]
  rfl

/-- A minimal place at latitude `n`, longitude 0, with no rating, no
reviews, a non-operational status and no tags — quality score 0. -/
def plainPlace (nm : String) (n : ℚ) (h1 : -90 ≤ n) (h2 : n ≤ 90) : Place :=
  ⟨nm, "", ⟨n, 0, h1, h2, by norm_num, by norm_num⟩, none, [], none, 0, "NONE"⟩

theorem plainPlace_score (nm : String) (n : ℚ) (h1 : -90 ≤ n) (h2 : n ≤ 90) :
    calculate_place_quality_score (plainPlace nm n h1 h2) = 0 := by
  simp [calculate_place_quality_score, plainPlace, high_value_types]

/-- Five discovered places, more than the three offered to the generative
service. -/
def fiveDiscovered : List Place :=
  [plainPlace "P1" 1 (by norm_num) (by norm_num),
   plainPlace "P2" 2 (by norm_num) (by norm_num),
   plainPlace "P3" 3 (by norm_num) (by norm_num),
   plainPlace "P4" 4 (by norm_num) (by norm_num),
   plainPlace "P5" 5 (by norm_num) (by norm_num)]

/-- Environment for the C2 counterexample: five discovered places and a
generative response selecting index 7. -/
def envFiveIndexSeven : GenEnv :=
  ⟨.ok fiveDiscovered, .parsed qdIndexSeven, .failure "unused", none, "quest_3"⟩

theorem fiveDiscovered_ranked : rankPlaces fiveDiscovered = fiveDiscovered := by
  apply rankPlaces_sorted_fixed
  apply List.pairwise_of_forall_mem_list
  have hs : ∀ p ∈ fiveDiscovered, calculate_place_quality_score p = 0 := by
    intro p hp
    fin_cases hp <;> exact plainPlace_score _ _ _ _
  intro a ha b hb
  rw [hs a ha, hs b hb]

/-- C2 counterexample: with five discovered places (so N = min(3,5) = 3
candidates offered) and a returned index 7, the code clamps to
len(ranked)-1 = 4, not to N-1 = 2: the quest is anchored at the fifth
ranked place (latitude 5), not at the coordinates of the place at index
N-1 of the candidate list (latitude 3). -/
theorem clamp_index_counterexample :
    (generate_quest envFiveIndexSeven coordIbadan .environment).toOption.map
        (fun o => o.quest.location.lat) = some 5 ∧
    (candidatePlaces fiveDiscovered).length = 3 ∧
    ((candidatePlaces fiveDiscovered).getD 2
      (plainPlace "P1" 1 (by norm_num) (by norm_num))).coordinates.lat = 3 ∧
    (5:ℚ) ≠ 3 := by
  have hmain := generate_quest_parsed_ok envFiveIndexSeven coordIbadan .environment
    (plainPlace "P1" 1 (by norm_num) (by norm_num))
    [plainPlace "P2" 2 (by norm_num) (by norm_num),
     plainPlace "P3" 3 (by norm_num) (by norm_num),
     plainPlace "P4" 4 (by norm_num) (by norm_num),
     plainPlace "P5" 5 (by norm_num) (by norm_num)]
    qdIndexSeven .medium rfl rfl rfl (by decide) (by decide) (by decide)
  refine ⟨?_, ?_, ?_, by norm_num⟩
  · rw [hmain]
    simp only [Except.toOption, Option.map]
    have hsel : selectedPlace qdIndexSeven fiveDiscovered
        (plainPlace "P1" 1 (by norm_num) (by norm_num)) =
        plainPlace "P5" 5 (by norm_num) (by norm_num) := by
      unfold selectedPlace
      rw [fiveDiscovered_ranked]
      rfl
    rw [show (plainPlace "P1" 1 (by norm_num) (by norm_num) ::
        [plainPlace "P2" 2 (by norm_num) (by norm_num),
         plainPlace "P3" 3 (by norm_num) (by norm_num),
         plainPlace "P4" 4 (by norm_num) (by norm_num),
         plainPlace "P5" 5 (by norm_num) (by norm_num)]) = fiveDiscovered from rfl,
      hsel]
    rfl
  · unfold candidatePlaces
    rw [fiveDiscovered_ranked]
    rfl
  · unfold candidatePlaces
    rw [fiveDiscovered_ranked]
    rfl

theorem take3_getD_zero (l : List Place) (d : Place) :
    (l.take 3).getD 0 d = l.getD 0 d := by
  cases l <;> rfl

/-- C10: when the parsed generative response omits
`selected_location_index` entirely, the selection index defaults to 0 via
`.get`, so the constructed quest is anchored to the highest-ranked
(first) candidate rather than failing or falling back. -/
theorem missing_index_defaults_to_first (env : GenEnv) (coordinates : Coordinates)
    (category : ResolutionCategory) (p0 : Place) (rest : List Place) (qd : QuestData)
    (d : Difficulty)
    (hdisc : env.discovery = .ok (p0 :: rest))
    (hai : env.aiLocationAware = .parsed qd)
    (hidx : qd.selected_location_index = none)
    (hdiff : Difficulty.ofString qd.difficulty = some d)
    (ht1 : 5 ≤ qd.title.length) (ht2 : qd.title.length ≤ 100)
    (hd20 : 20 ≤ qd.description.length) :
    clampedIndex qd.selected_location_index (rankPlaces (p0 :: rest)).length = 0 ∧
    selectedPlace qd (p0 :: rest) p0 = (candidatePlaces (p0 :: rest)).getD 0 p0 ∧
    (∃ o, generate_quest env coordinates category = .ok o) ∧
    (∀ o, generate_quest env coordinates category = .ok o →
      o.quest.location = ((candidatePlaces (p0 :: rest)).getD 0 p0).coordinates) := by
  have hmain := generate_quest_parsed_ok env coordinates category p0 rest qd d
    hdisc hai hdiff ht1 ht2 hd20
  have hclamp : clampedIndex qd.selected_location_index
      (rankPlaces (p0 :: rest)).length = 0 := by
    unfold clampedIndex
    rw [hidx]
    have hlen : (rankPlaces (p0 :: rest)).length = rest.length + 1 := by
      rw [rankPlaces_length, List.length_cons]
    rw [hlen]
    simp only [Option.getD_none]
    rw [min_eq_left (by push_cast; omega)]
    exact max_self 0
  have hsel : selectedPlace qd (p0 :: rest) p0 =
      (candidatePlaces (p0 :: rest)).getD 0 p0 := by
    unfold selectedPlace candidatePlaces
    rw [hclamp, take3_getD_zero]
    rfl
  refine ⟨hclamp, hsel, ⟨_, hmain⟩, ?_⟩
  intro o ho
  rw [hmain] at ho
  cases ho
  rw [← hsel]

/-- The parsed location-aware response for the C10 witness: no
`selected_location_index` field, valid quest fields. -/
def qdNoIndex : QuestData :=
  ⟨none, "Old Depot Revival Day", "Organize a neighborhood effort to clean and repaint the old depot building.",
    "Medium", "Repaint 100 sq meters", none, none⟩

/-- Environment for the C10 witness: one discovered place and a response
with no selection index. -/
def envNoIndex : GenEnv :=
  ⟨.ok [zeroPlace], .parsed qdNoIndex, .failure "unused", none, "quest_4"⟩

/-- Witness for C10: with one discovered place and the index field absent,
generation succeeds anchored at the first candidate. -/
theorem missing_index_defaults_to_first_witness :
    clampedIndex qdNoIndex.selected_location_index
      (rankPlaces [zeroPlace]).length = 0 ∧
    (generate_quest envNoIndex coordIbadan .environment).toOption.map
      (fun o => o.quest.location.lat) = some (73775/10000) := by
  have h := missing_index_defaults_to_first envNoIndex coordIbadan .environment
    zeroPlace [] qdNoIndex .medium rfl rfl rfl rfl (by decide) (by decide) (by decide)
  obtain ⟨o, ho⟩ := h.2.2.1
  have hloc := h.2.2.2 o ho
  refine ⟨h.1, ?_⟩
  rw [ho]
  simp only [Except.toOption, Option.map]
  rw [hloc]
  rfl

/-- C8: the candidate list offered to the generative service is the
discovered list sorted descending by quality score and truncated to the
top 3; the sort output is pairwise descending, a permutation of the
input, stable (places of any equal score keep the discovery order), and a
list already in descending score order is presented unchanged. -/
theorem rank_places_sorted_stable_top3 (places : List Place) :
    candidatePlaces places = (rankPlaces places).take 3 ∧
    ((rankPlaces places).Pairwise (fun a b =>
      calculate_place_quality_score b ≤ calculate_place_quality_score a)) ∧
    List.Perm (rankPlaces places) places ∧
    (∀ s : ℚ, (rankPlaces places).filter
        (fun p => decide (calculate_place_quality_score p = s)) =
      places.filter (fun p => decide (calculate_place_quality_score p = s))) ∧
    (places.Pairwise (fun a b =>
        calculate_place_quality_score b ≤ calculate_place_quality_score a) →
      rankPlaces places = places ∧ candidatePlaces places = places.take 3) :=
  ⟨rfl, rankPlaces_sorted places, rankPlaces_perm places, rankPlaces_stable places,
    fun h => ⟨rankPlaces_sorted_fixed places h, by
      unfold candidatePlaces
      rw [rankPlaces_sorted_fixed places h]⟩⟩

theorem perfectPlace_score : calculate_place_quality_score perfectPlace = 1 := by
  rw [calculate_place_quality_score_eq_spec]
  unfold qualityScoreSpec
  norm_num [perfectPlace, high_value_types, min_def]

theorem zeroPlace_score : calculate_place_quality_score zeroPlace = 0 := by
  simp [calculate_place_quality_score, zeroPlace, high_value_types]

/-- Witness for C8: a two-place list already in descending score order
(scores 1 and 0) is presented unchanged and fully offered. -/
theorem rank_places_sorted_stable_top3_witness :
    rankPlaces [perfectPlace, zeroPlace] = [perfectPlace, zeroPlace] ∧
    candidatePlaces [perfectPlace, zeroPlace] = [perfectPlace, zeroPlace] := by
  have hpair : ([perfectPlace, zeroPlace] : List Place).Pairwise
      (fun a b => calculate_place_quality_score b ≤ calculate_place_quality_score a) := by
    rw [List.pairwise_cons]
    constructor
    · intro b hb
      rw [List.mem_singleton] at hb
      subst hb
      rw [perfectPlace_score, zeroPlace_score]
      norm_num
    · exact List.pairwise_singleton _ _
  have h := (rank_places_sorted_stable_top3 [perfectPlace, zeroPlace]).2.2.2.2 hpair
  exact ⟨h.1, by rw [h.2]; rfl⟩
